import Mathlib

/-!
Shallow embedding of the `altmanager/ts-client` library (src/index.ts),
covering the live-state synchronization core: the `Player` data listener,
`disconnect`, `send`, `OfflinePlayer.connect`, `AltManager.listPlayers`
and `AltManager._fetch` response handling.

JavaScript modelling conventions:
* a possibly-absent (`undefined`) property is an `Option`;
* a JS array value (the coordinates triple) carries an object-identity
  tag `ref`, because the source compares coordinates with `!==`, which
  on arrays is reference (in)equality, not element-wise equality;
* `Object.keys(data)` is the list of present fields, in field order;
* JS numbers are modelled as `Int` (server-pushed values are quantized,
  and no claim depends on fractional or NaN behaviour);
* exceptions are `Except`.
-/

namespace AltManagerClient

/-- Game modes, from the `gameMode` union type in src/index.ts. -/
inductive GameMode
  | survival
  | creative
  | adventure
  | spectator
deriving DecidableEq, Repr

/-- Authentication methods, from the `authMethod` union type. -/
inductive AuthMethod
  | mojang
  | microsoft
  | offline
deriving DecidableEq, Repr

/-- A JS array holding a coordinate triple.  `val` is the element data,
`ref` the object identity: two distinct array objects have distinct
`ref` even when `val` coincides, mirroring JS `===` on arrays. -/
structure CoordArray where
  val : Int × Int × Int
  ref : Nat
deriving DecidableEq, Repr

/-- A JS live-data object as it appears at runtime: each of the five
declared fields may be present (`some`) or `undefined` (`none`). -/
structure LiveDataObj where
  health : Option Int
  hunger : Option Int
  ping : Option Int
  gameMode : Option GameMode
  coordinates : Option CoordArray
deriving DecidableEq, Repr

/-- The five property keys of the live-data record. -/
inductive FieldKey
  | health
  | hunger
  | ping
  | gameMode
  | coordinates
deriving DecidableEq, Repr

/-- `Object.keys(data)`: the keys actually present on the object. -/
def LiveDataObj.keys (d : LiveDataObj) : List FieldKey :=
  (if d.health.isSome then [FieldKey.health] else [])
  ++ (if d.hunger.isSome then [FieldKey.hunger] else [])
  ++ (if d.ping.isSome then [FieldKey.ping] else [])
  ++ (if d.gameMode.isSome then [FieldKey.gameMode] else [])
  ++ (if d.coordinates.isSome then [FieldKey.coordinates] else [])

/-- All five fields are present (a well-formed LiveState). -/
def LiveDataObj.wellFormed (d : LiveDataObj) : Bool :=
  d.health.isSome && d.hunger.isSome && d.ping.isSome
    && d.gameMode.isSome && d.coordinates.isSome

/-- JS `!==` on two coordinate properties: `undefined` only equals
`undefined`; two arrays are `===` exactly when they are the same
object (same `ref`). -/
def coordStrictNeq : Option CoordArray → Option CoordArray → Bool
  | some a, some b => a.ref != b.ref
  | none, none => false
  | _, _ => true

/-- JS `data[key] !== this.liveData[key]` for one key: value equality
for numbers and the game-mode string, reference equality for the
coordinates array. -/
def strictNeqAt (data p : LiveDataObj) : FieldKey → Bool
  | .health => data.health != p.health
  | .hunger => data.hunger != p.hunger
  | .ping => data.ping != p.ping
  | .gameMode => data.gameMode != p.gameMode
  | .coordinates => coordStrictNeq data.coordinates p.coordinates

/-- Events emitted through the Player's `EventEmitter`. -/
inductive Event
  | healthChange (prev : Option Int)
  | hungerChange (prev : Option Int)
  | pingChange (prev : Option Int)
  | gameModeChange (prev : Option GameMode)
  | coordinatesChange (prev : Option CoordArray)
  | change (prev : LiveDataObj)
  | chat (msg : String)
  | disconnected
deriving DecidableEq, Repr

/-- The `key + "Change"` event for a key, carrying `this.liveData[key]`
(the previous value) as the listener argument. -/
def fieldChangeEvent (k : FieldKey) (p : LiveDataObj) : Event :=
  match k with
  | .health => .healthChange p.health
  | .hunger => .hungerChange p.hunger
  | .ping => .pingChange p.ping
  | .gameMode => .gameModeChange p.gameMode
  | .coordinates => .coordinatesChange p.coordinates

/-- One step taken by the data listener: either emit an event or
assign `this.liveData`. -/
inductive Action
  | emit (e : Event)
  | setLiveData (d : LiveDataObj)
deriving DecidableEq, Repr

/-- The body of the socket `data` listener (src/index.ts lines
275-282), as the ordered list of its effects given the current
`this.liveData` value `p` and the pushed object `data`:
for each present key, emit `key + "Change"` with the previous value
when `data[key] !== this.liveData[key]`; then emit `"change"` with the
previous live data; finally assign `this.liveData = data`. -/
def dataHandler (p : LiveDataObj) (data : LiveDataObj) : List Action :=
  (data.keys.filterMap fun k =>
    if strictNeqAt data p k then some (.emit (fieldChangeEvent k p)) else none)
  ++ [.emit (.change p), .setLiveData data]

/-- Run a list of actions over a live-data cell, collecting the emitted
events in order. -/
def runActions (s : LiveDataObj) (as : List Action) : LiveDataObj × List Event :=
  as.foldl
    (fun acc a =>
      match a with
      | .emit e => (acc.1, acc.2 ++ [e])
      | .setLiveData d => (d, acc.2))
    (s, [])

/-- The events emitted by an action list. -/
def emittedEvents (as : List Action) : List Event :=
  as.filterMap fun a =>
    match a with
    | .emit e => some e
    | .setLiveData _ => none

/-- Is an event the aggregate `change` notification? -/
def isAggregate : Event → Bool
  | .change _ => true
  | _ => false

/-- Outbound signals on the push channel. -/
inductive Signal
  | subscribe (id : String)
  | unsubscribe (id : String)
deriving DecidableEq, Repr

/-- A request/response call issued through `_fetch`. -/
structure HttpRequest where
  path : String
  method : String
  body : Option (List (String × String))
deriving DecidableEq, Repr

/-- A connected `Player` instance: connection metadata, the mutable
`liveData` cell, and whether the socket `data` listener registered in
the constructor is still attached (the source never removes it). -/
structure PlayerSession where
  id : String
  server : String
  version : String
  username : String
  uuid : String
  liveData : LiveDataObj
  dataListenerOn : Bool
deriving DecidableEq, Repr

/-- The `Player` constructor (src/index.ts line 270-286): store the
snapshot live data, emit `subscribe(id)`, register the `data`
listener. -/
def newPlayer (id server version username uuid : String)
    (liveData : LiveDataObj) : List Signal × PlayerSession :=
  ([.subscribe id],
   { id := id, server := server, version := version, username := username,
     uuid := uuid, liveData := liveData, dataListenerOn := true })

/-- Accessor `get health()`. -/
def PlayerSession.health (s : PlayerSession) : Option Int := s.liveData.health

/-- Accessor `get hunger()`. -/
def PlayerSession.hunger (s : PlayerSession) : Option Int := s.liveData.hunger

/-- Accessor `get ping()`. -/
def PlayerSession.ping (s : PlayerSession) : Option Int := s.liveData.ping

/-- Accessor `get gameMode()`. -/
def PlayerSession.gameMode (s : PlayerSession) : Option GameMode := s.liveData.gameMode

/-- Accessor `get coordinates()`. -/
def PlayerSession.coordinates (s : PlayerSession) : Option CoordArray := s.liveData.coordinates

/-- Delivery of a socket `data` event to the session: the listener runs
exactly when it is registered (the source registers it in the
constructor and never detaches it). -/
def deliverData (s : PlayerSession) (data : LiveDataObj) : PlayerSession × List Event :=
  if s.dataListenerOn then
    let r := runActions s.liveData (dataHandler s.liveData data)
    ({ s with liveData := r.1 }, r.2)
  else (s, [])

/-- `Player.disconnect` (src/index.ts lines 291-295): emit
`unsubscribe(id)`, then `await _fetch(POST /players/{id}/disconnect)`
(whose outcome is the parameter), then emit the `disconnect` event.
An exception from the fetch propagates; nothing on the session is
changed either way (in particular the data listener stays attached).
Returns (signals sent, events emitted, outcome with the session). -/
def PlayerSession.disconnect (s : PlayerSession) (fetchResult : Except String Unit) :
    List Signal × List Event × Except String PlayerSession :=
  match fetchResult with
  | .ok _ => ([.unsubscribe s.id], [.disconnected], .ok s)
  | .error e => ([.unsubscribe s.id], [], .error e)

/-- `Player.send` (src/index.ts lines 301-303): one
`POST /players/{id}/chat` with body `{message}`; no state change. -/
def PlayerSession.send (s : PlayerSession) (message : String) :
    List HttpRequest × PlayerSession :=
  ([{ path := "/players/" ++ s.id ++ "/chat", method := "POST",
      body := some [("message", message)] }], s)

/-- Immutable identity data (`OfflinePlayer` fields). -/
structure SessionIdentity where
  id : String
  name : String
  authMethod : AuthMethod
  lastOnline : Option Nat
deriving DecidableEq, Repr

/-- One entry of the `GET /players` response, as consumed by
`listPlayers`: identity fields plus the online flag and the
(possibly absent) connection fields. -/
structure PlayerEntry where
  id : String
  name : String
  authMethod : AuthMethod
  lastOnline : Option Nat
  online : Bool
  server : Option String
  version : Option String
  username : Option String
  uuid : Option String
  liveData : Option LiveDataObj
deriving DecidableEq, Repr

/-- The `OfflinePlayer` built from an entry. -/
def identityOf (p : PlayerEntry) : SessionIdentity :=
  { id := p.id, name := p.name, authMethod := p.authMethod, lastOnline := p.lastOnline }

/-- Result of mapping one entry: the `OfflinePlayer`, or the `Player`
wrapping it (carrying whatever `server`/`version`/`username`/`uuid`/
`liveData` properties the entry had, present or not). -/
inductive SessionResult
  | identity (i : SessionIdentity)
  | live (i : SessionIdentity) (server version username uuid : Option String)
      (liveData : Option LiveDataObj)
deriving DecidableEq, Repr

/-- Whether the result is a `Player` (live session). -/
def SessionResult.isLive : SessionResult → Bool
  | .identity _ => false
  | .live _ _ _ _ _ _ => true

/-- The identity underlying a result. -/
def SessionResult.ident : SessionResult → SessionIdentity
  | .identity i => i
  | .live i _ _ _ _ _ => i

/-- `AltManager.listPlayers` (src/index.ts lines 55-62) applied to the
parsed response array: `data.map(p => ...)`, where each entry becomes
an `OfflinePlayer`, and a `Player` wrapping it exactly when `p.online`
is truthy (no check that a live-data payload is present). -/
def listPlayers (entries : List PlayerEntry) : List SessionResult :=
  entries.map fun p =>
    if p.online then
      .live (identityOf p) p.server p.version p.username p.uuid p.liveData
    else
      .identity (identityOf p)

/-- The response snapshot of `POST /players/{id}/connect`. -/
structure ConnectResponse where
  server : String
  version : String
  username : String
  uuid : String
  liveData : LiveDataObj
deriving DecidableEq, Repr

/-- `OfflinePlayer.connect` (src/index.ts lines 148-151) after the
fetch succeeded with snapshot `resp`: construct the `Player` from the
identity and the response fields. -/
def connectPlayer (ident : SessionIdentity) (resp : ConnectResponse) :
    List Signal × PlayerSession :=
  newPlayer ident.id resp.server resp.version resp.username resp.uuid resp.liveData

/-- The parsed response body as `_fetch` computes it: a JSON object
(with its optional string `error` property) or plain text, chosen by
the content-type header. -/
inductive FetchData
  | jsonObj (errorField : Option String)
  | text (t : String)
deriving DecidableEq, Repr

/-- The string interpolation `${(data as any)?.error ?? data}` of the
error template: the `error` property when the JSON object has one,
otherwise the data itself (a plain JS object stringifies as
`[object Object]`). -/
def dataErrorString : FetchData → String
  | .jsonObj (some e) => e
  | .jsonObj none => "[object Object]"
  | .text t => t

/-- The message of the `Error` thrown by `_fetch` on a non-ok
response. -/
def errMessage (status : Nat) (d : FetchData) : String :=
  "Error: " ++ toString status ++ ": " ++ dataErrorString d

/-- `res.ok`: status in the 2xx range. -/
def resOk (status : Nat) : Bool :=
  decide (200 ≤ status) && decide (status < 300)

/-- The tail of `AltManager._fetch` (src/index.ts lines 43-49): parse
the body, then throw `Error(...)` when `!res.ok`, else return the
parsed data. -/
def fetchResult (status : Nat) (d : FetchData) : Except String FetchData :=
  if resOk status then .ok d else .error (errMessage status d)

end AltManagerClient

namespace AltManagerClient

/-! ## Concrete data used by evaluation theorems -/

/-- A fully-populated live state: health 20, hunger 18, ping 40,
survival, coordinates (0,64,0) as array object 1. -/
def sampleState : LiveDataObj :=
  { health := some 20, hunger := some 18, ping := some 40,
    gameMode := some .survival, coordinates := some ⟨(0, 64, 0), 1⟩ }

/-- A connected session holding `sampleState`. -/
def sampleSession : PlayerSession :=
  (newPlayer "a-b-c-d-e" "mc.example.com" "1.20" "bob" "u-u-i-d" sampleState).2

/-- A push differing from `sampleState` in health (15) and carrying a
fresh coordinates array (object 2) with the same elements. -/
def pushHealth15 : LiveDataObj :=
  { health := some 15, hunger := some 18, ping := some 40,
    gameMode := some .survival, coordinates := some ⟨(0, 64, 0), 2⟩ }

/-- A push equal to `sampleState` in every field value, but whose
coordinates arrive as a fresh array (object 3) with the same
elements — as every JSON-deserialized push does. -/
def pushSameValues : LiveDataObj :=
  { health := some 20, hunger := some 18, ping := some 40,
    gameMode := some .survival, coordinates := some ⟨(0, 64, 0), 3⟩ }

/-- A push carrying only `health` (the other four properties
`undefined`). -/
def pushOnlyHealth : LiveDataObj :=
  { health := some 5, hunger := none, ping := none,
    gameMode := none, coordinates := none }

/-- An entry whose `online` flag is true but which has no live-state
payload. -/
def onlineNoPayloadEntry : PlayerEntry :=
  { id := "x-y-z-w-v", name := "eve", authMethod := .offline,
    lastOnline := some 100, online := true,
    server := none, version := none, username := none, uuid := none,
    liveData := none }

end AltManagerClient

namespace AltManagerClient

/-! ## Helper lemmas -/

/-- The data listener's action list splits into the per-field change
emissions (each carrying the previous state's value of its field),
then the aggregate `change` emission, then the state assignment. -/
theorem dataHandler_split (p data : LiveDataObj) :
    ∃ fieldActs : List Action,
      dataHandler p data
        = fieldActs ++ [Action.emit (Event.change p), Action.setLiveData data] ∧
      ∀ a ∈ fieldActs, ∃ k : FieldKey, a = Action.emit (fieldChangeEvent k p) := by
  refine ⟨_, rfl, ?_⟩
  intro a ha
  rcases List.mem_filterMap.mp ha with ⟨k, _, hk⟩
  by_cases h : strictNeqAt data p k
  · refine ⟨k, ?_⟩
    simp [h] at hk
    exact hk.symm
  · simp [h] at hk

/-- A field-change event is never the aggregate event. -/
theorem fieldChangeEvent_not_aggregate (k : FieldKey) (p : LiveDataObj) :
    isAggregate (fieldChangeEvent k p) = false := by
  cases k <;> rfl

/-- Running an action list whose last action assigns `d` leaves the
live-data cell holding `d`. -/
theorem runActions_last_set (s : LiveDataObj) (as : List Action) (d : LiveDataObj) :
    (runActions s (as ++ [Action.setLiveData d])).1 = d := by
  simp [runActions, List.foldl_append]

end AltManagerClient

namespace AltManagerClient

/-! ## Claim theorems -/

/-- C1: a `data` push delivered after `disconnect()` has completed does
NOT leave the cached LiveState unchanged: `disconnect` returns the
session unchanged (the data listener is still attached, no guard is
set), so the handler still runs and the health accessor moves from 20
to 15.  Evaluation of the code at the failing input. -/
theorem post_disconnect_push_mutates_state :
    (sampleSession.disconnect (Except.ok ())).2.2 = Except.ok sampleSession ∧
    sampleSession.dataListenerOn = true ∧
    sampleSession.health = some 20 ∧
    ((deliverData sampleSession pushHealth15).1).health = some 15 := by
  refine ⟨rfl, rfl, rfl, ?_⟩
  decide

/-- C2: the change detection does not use element-wise equality on the
coordinates triple: a push equal to the stored state in every field
value, whose coordinates merely arrive as a fresh array object with
the same elements, still fires a `coordinatesChange` notification
(JS `!==` compares arrays by reference).  Evaluation of the code at
the failing input. -/
theorem coord_change_fires_on_equal_triples :
    sampleState.coordinates.map CoordArray.val
      = pushSameValues.coordinates.map CoordArray.val ∧
    sampleState.health = pushSameValues.health ∧
    sampleState.hunger = pushSameValues.hunger ∧
    sampleState.ping = pushSameValues.ping ∧
    sampleState.gameMode = pushSameValues.gameMode ∧
    emittedEvents (dataHandler sampleState pushSameValues)
      = [Event.coordinatesChange sampleState.coordinates, Event.change sampleState] := by
  decide

/-- C3: on every push, the handler's effect sequence is: per-field
change notifications (each carrying the previous state's value of its
field), then the aggregate `change` notification carrying the whole
previous state, then — last — the replacement of the stored state by
the pushed data; running the sequence indeed leaves the pushed data
stored. -/
theorem diff_before_replace (p data : LiveDataObj) :
    (runActions p (dataHandler p data)).1 = data ∧
    ∃ fieldActs : List Action,
      dataHandler p data
        = fieldActs ++ [Action.emit (Event.change p), Action.setLiveData data] ∧
      ∀ a ∈ fieldActs, ∃ k : FieldKey, a = Action.emit (fieldChangeEvent k p) := by
  constructor
  · have h := runActions_last_set p
      ((dataHandler p data).dropLast) data
    rcases dataHandler_split p data with ⟨fa, hfa, _⟩
    rw [hfa]
    rw [show fa ++ [Action.emit (Event.change p), Action.setLiveData data]
        = (fa ++ [Action.emit (Event.change p)]) ++ [Action.setLiveData data] by
      simp]
    exact runActions_last_set p _ data
  · exact dataHandler_split p data

/-- C4: a push missing fields leaves the stored LiveState partially
updated: the handler assigns the pushed object wholesale, so after a
push carrying only `health`, the stored state is no longer
well-formed (`hunger` is `undefined`).  Evaluation of the code at the
failing input. -/
theorem partial_push_leaves_partial_state :
    sampleState.wellFormed = true ∧
    (runActions sampleState (dataHandler sampleState pushOnlyHealth)).1 = pushOnlyHealth ∧
    (runActions sampleState (dataHandler sampleState pushOnlyHealth)).1.hunger = none ∧
    (runActions sampleState (dataHandler sampleState pushOnlyHealth)).1.wellFormed = false := by
  decide

/-- C5: `disconnect()` emits the `unsubscribe` signal for the session's
identity, exactly once, before awaiting the HTTP call — so it is sent
whether the `POST /players/{id}/disconnect` fetch succeeds or fails. -/
theorem unsubscribe_always_sent (s : PlayerSession) (r : Except String Unit) :
    (s.disconnect r).1 = [Signal.unsubscribe s.id] := by
  cases r <;> rfl

/-- C6: `send(message)` performs exactly one request — the
`POST /players/{id}/chat` with body `{message}` — and returns the
session unchanged, so every LiveState accessor is unchanged. -/
theorem send_one_request_no_mutation (s : PlayerSession) (m : String) :
    (s.send m).1.length = 1 ∧
    (s.send m).1 = [HttpRequest.mk ("/players/" ++ s.id ++ "/chat") "POST"
        (some [("message", m)])] ∧
    (s.send m).2 = s ∧
    (s.send m).2.health = s.health ∧
    (s.send m).2.hunger = s.hunger ∧
    (s.send m).2.ping = s.ping ∧
    (s.send m).2.gameMode = s.gameMode ∧
    (s.send m).2.coordinates = s.coordinates :=
  ⟨rfl, rfl, rfl, rfl, rfl, rfl, rfl, rfl⟩

/-- C7 counterexample: an entry whose `online` flag is true but which
carries no live-state payload is still turned into a live `Player` by
`listPlayers` — the code never checks for the payload — refuting
"becomes a LiveSession exactly when its online flag is true and it
includes a live-state payload". -/
theorem online_entry_without_payload_becomes_live :
    onlineNoPayloadEntry.online = true ∧
    onlineNoPayloadEntry.liveData = none ∧
    (listPlayers [onlineNoPayloadEntry]).map SessionResult.isLive = [true] := by
  decide

/-- C7 (amended): `listPlayers` returns one result per response entry,
in the server's order (the i-th result is built from the i-th entry),
and an entry becomes a live `Player` exactly when its `online` flag is
true — whether or not a live-state payload is present. -/
theorem listPlayers_order_online_upgrade (es : List PlayerEntry) :
    (listPlayers es).length = es.length ∧
    ∀ i : Nat,
      ((listPlayers es)[i]?).map SessionResult.isLive
        = (es[i]?).map PlayerEntry.online ∧
      ((listPlayers es)[i]?).map SessionResult.ident
        = (es[i]?).map identityOf := by
  constructor
  · simp [listPlayers]
  · intro i
    constructor <;>
    · rw [listPlayers, List.getElem?_map]
      cases es[i]? with
      | none => rfl
      | some p =>
          cases hp : p.online <;>
            simp [SessionResult.isLive, SessionResult.ident, hp]

/-- C8: the `Player` built by `connect` from a response snapshot
exposes exactly the snapshot's live-state values through all five
accessors. -/
theorem connect_snapshot_visible (i : SessionIdentity) (resp : ConnectResponse) :
    ((connectPlayer i resp).2).health = resp.liveData.health ∧
    ((connectPlayer i resp).2).hunger = resp.liveData.hunger ∧
    ((connectPlayer i resp).2).ping = resp.liveData.ping ∧
    ((connectPlayer i resp).2).gameMode = resp.liveData.gameMode ∧
    ((connectPlayer i resp).2).coordinates = resp.liveData.coordinates :=
  ⟨rfl, rfl, rfl, rfl, rfl⟩

/-- C9: on a non-2xx response `_fetch` fails with a single error
message — built from the `error` field of an `{error: string}` JSON
body, or from the plain text body — and on a 2xx response it returns
the parsed body without error. -/
theorem fetch_error_surface (status : Nat) (e t : String) :
    (¬ (200 ≤ status ∧ status < 300) →
      fetchResult status (.jsonObj (some e))
        = .error ("Error: " ++ toString status ++ ": " ++ e) ∧
      fetchResult status (.text t)
        = .error ("Error: " ++ toString status ++ ": " ++ t)) ∧
    ((200 ≤ status ∧ status < 300) → ∀ d : FetchData, fetchResult status d = .ok d) := by
  constructor
  · intro h
    have hok : resOk status = false := by
      simp [resOk, decide_eq_true_eq]
      omega
    exact ⟨by simp [fetchResult, hok, errMessage, dataErrorString],
           by simp [fetchResult, hok, errMessage, dataErrorString]⟩
  · intro h d
    have hok : resOk status = true := by
      simp [resOk, decide_eq_true_eq]
      omega
    simp [fetchResult, hok]

/-- C9 witness: the theorem applied at status 404 with an
`{error: "player not found"}` body and at status 200. -/
theorem fetch_error_surface_witness :
    fetchResult 404 (.jsonObj (some "player not found"))
      = .error ("Error: " ++ toString 404 ++ ": " ++ "player not found") ∧
    fetchResult 200 (.text "ok") = .ok (.text "ok") :=
  ⟨((fetch_error_surface 404 "player not found" "x").1 (by omega)).1,
   (fetch_error_surface 200 "x" "ok").2 (by omega) _⟩

/-- C10: every handled push emits the aggregate `change` notification
exactly once, carrying the previous LiveState — whatever the pushed
data, including a push with no differing field. -/
theorem aggregate_once_per_push (p data : LiveDataObj) :
    (emittedEvents (dataHandler p data)).filter isAggregate = [Event.change p] := by
  rcases dataHandler_split p data with ⟨fa, hfa, hmem⟩
  rw [hfa]
  have hsplit : emittedEvents
      (fa ++ [Action.emit (Event.change p), Action.setLiveData data])
      = emittedEvents fa ++ [Event.change p] := by
    simp [emittedEvents, List.filterMap_append]
  rw [hsplit, List.filter_append]
  have hnil : (emittedEvents fa).filter isAggregate = [] := by
    rw [List.filter_eq_nil_iff]
    intro ev hev
    rcases List.mem_filterMap.mp hev with ⟨a, ha, hae⟩
    rcases hmem a ha with ⟨k, hk⟩
    subst hk
    simp at hae
    subst hae
    simp [fieldChangeEvent_not_aggregate]
  rw [hnil]
  rfl

end AltManagerClient

namespace AltManagerClient

/-- C3 witness: the ordering theorem applied at the sample state and a
concrete push. -/
theorem diff_before_replace_witness :
    (runActions sampleState (dataHandler sampleState pushHealth15)).1 = pushHealth15 ∧
    ∃ fieldActs : List Action,
      dataHandler sampleState pushHealth15
        = fieldActs ++ [Action.emit (Event.change sampleState),
            Action.setLiveData pushHealth15] ∧
      ∀ a ∈ fieldActs, ∃ k : FieldKey,
        a = Action.emit (fieldChangeEvent k sampleState) :=
  diff_before_replace sampleState pushHealth15

/-- C5 witness: the unsubscribe signal is sent by the sample session in
both the successful and the failing fetch case. -/
theorem unsubscribe_always_sent_witness :
    (sampleSession.disconnect (Except.error "HTTP 500")).1
      = [Signal.unsubscribe sampleSession.id] :=
  unsubscribe_always_sent sampleSession (Except.error "HTTP 500")

/-- C6 witness: `send` on the sample session with a concrete message. -/
theorem send_one_request_no_mutation_witness :
    (sampleSession.send "hello").1.length = 1 ∧
    (sampleSession.send "hello").1
      = [HttpRequest.mk ("/players/" ++ sampleSession.id ++ "/chat") "POST"
          (some [("message", "hello")])] ∧
    (sampleSession.send "hello").2 = sampleSession ∧
    (sampleSession.send "hello").2.health = sampleSession.health ∧
    (sampleSession.send "hello").2.hunger = sampleSession.hunger ∧
    (sampleSession.send "hello").2.ping = sampleSession.ping ∧
    (sampleSession.send "hello").2.gameMode = sampleSession.gameMode ∧
    (sampleSession.send "hello").2.coordinates = sampleSession.coordinates :=
  send_one_request_no_mutation sampleSession "hello"

/-- C7 witness: the amended listing theorem applied to a concrete
two-entry response (one offline, one online). -/
theorem listPlayers_order_online_upgrade_witness :
    (listPlayers [{ onlineNoPayloadEntry with online := false },
        onlineNoPayloadEntry]).length
      = ([{ onlineNoPayloadEntry with online := false },
          onlineNoPayloadEntry] : List PlayerEntry).length ∧
    ∀ i : Nat,
      ((listPlayers [{ onlineNoPayloadEntry with online := false },
          onlineNoPayloadEntry])[i]?).map SessionResult.isLive
        = (([{ onlineNoPayloadEntry with online := false },
            onlineNoPayloadEntry] : List PlayerEntry)[i]?).map PlayerEntry.online ∧
      ((listPlayers [{ onlineNoPayloadEntry with online := false },
          onlineNoPayloadEntry])[i]?).map SessionResult.ident
        = (([{ onlineNoPayloadEntry with online := false },
            onlineNoPayloadEntry] : List PlayerEntry)[i]?).map identityOf :=
  listPlayers_order_online_upgrade
    [{ onlineNoPayloadEntry with online := false }, onlineNoPayloadEntry]

/-- C8 witness: connecting the sample identity with a concrete snapshot
makes every accessor return the snapshot values. -/
theorem connect_snapshot_visible_witness :
    ((connectPlayer ⟨"a-b-c-d-e", "bob", AuthMethod.offline, none⟩
        ⟨"mc.example.com", "1.20", "bob", "u-u-i-d", sampleState⟩).2).health
      = sampleState.health ∧
    ((connectPlayer ⟨"a-b-c-d-e", "bob", AuthMethod.offline, none⟩
        ⟨"mc.example.com", "1.20", "bob", "u-u-i-d", sampleState⟩).2).hunger
      = sampleState.hunger ∧
    ((connectPlayer ⟨"a-b-c-d-e", "bob", AuthMethod.offline, none⟩
        ⟨"mc.example.com", "1.20", "bob", "u-u-i-d", sampleState⟩).2).ping
      = sampleState.ping ∧
    ((connectPlayer ⟨"a-b-c-d-e", "bob", AuthMethod.offline, none⟩
        ⟨"mc.example.com", "1.20", "bob", "u-u-i-d", sampleState⟩).2).gameMode
      = sampleState.gameMode ∧
    ((connectPlayer ⟨"a-b-c-d-e", "bob", AuthMethod.offline, none⟩
        ⟨"mc.example.com", "1.20", "bob", "u-u-i-d", sampleState⟩).2).coordinates
      = sampleState.coordinates :=
  connect_snapshot_visible ⟨"a-b-c-d-e", "bob", AuthMethod.offline, none⟩
    ⟨"mc.example.com", "1.20", "bob", "u-u-i-d", sampleState⟩

/-- C10 witness: the aggregate `change` event is emitted exactly once
for a push identical in value to the stored state. -/
theorem aggregate_once_per_push_witness :
    (emittedEvents (dataHandler sampleState pushSameValues)).filter isAggregate
      = [Event.change sampleState] :=
  aggregate_once_per_push sampleState pushSameValues

end AltManagerClient
